import Mathlib

/-!
Verification development for the `lightning-nox` utility module
(`lightningutil.py`).

The module has two functions: `open_and_preprocess`, which opens a gridded
NetCDF dataset, resolves the active variable from a candidate list, derives an
hourly timestamp axis from the filename, masks the sentinel fill value, and
re-keys the coordinates; and `case_study_plotting`, which renders a case-study
figure and optionally saves it.

Embedding conventions:
* Array values are modelled by `Val`: either a rational number (standing for a
  finite float) or `Val.nan` (the missing-data marker `np.nan`).
* Multi-dimensional arrays are modelled value-flattened as `List Val`;
  reshaping (`stack`) preserves the values, so it acts as the identity on the
  flat list, and coordinate bookkeeping is tracked by name.
* Timestamps are modelled as hours in the proleptic Gregorian calendar
  (`hoursOfDate`), matching the arithmetic pandas performs for an hourly
  `date_range`.
* Fallible steps return `Except PreprocessError _`; the error constructors
  record which Python exception the step raises and on what name, plus one
  explicit marker (`coordSelected`) for the branch in which the active name
  resolves to a coordinate, which this value-level embedding does not track.
-/

namespace LightningNox

/-- A data value: a finite number (modelled as a rational) or the
missing-data marker (`np.nan`). -/
inductive Val where
  | num : ℚ → Val
  | nan : Val
deriving DecidableEq, Repr

/-- The sentinel fill value `1e15` used by the source files
(`lightningutil.py` line 63). -/
def sentinel : ℚ := 1000000000000000

/-- One point of the `ds.where(ds[var] != 1e15, np.nan)` mask: keep `x` where
the condition value `c` differs from the sentinel, else write NaN.  NumPy
comparison makes `nan != 1e15` true, so NaN condition values are kept, which
coincides with this equation because `Val.nan ≠ Val.num sentinel`. -/
def maskVal (c x : Val) : Val :=
  if c = Val.num sentinel then Val.nan else x

/-- Masking a whole (flattened, same-shape) array `d` with the condition taken
pointwise from the active variable's data `cond`. -/
def maskData (cond d : List Val) : List Val :=
  List.zipWith maskVal cond d

/-- The pointwise effect of the mask on the active variable itself:
replace exactly the sentinel by NaN. -/
def maskSentinel (x : Val) : Val :=
  if x = Val.num sentinel then Val.nan else x

/-! ### Filename parsing (lines 50-54)

Python: `filename.split('.r180W')[0][-6:-2]` and `[-2:]`. -/

/-- Whether `sep` occurs at the head of `s`. -/
def tokenAt : List Char → List Char → Bool
  | [], _ => true
  | _ :: _, [] => false
  | a :: as, b :: bs => a == b && tokenAt as bs

/-- The characters of `s` before the first occurrence of (non-empty) `sep`;
all of `s` when `sep` does not occur.  This is Python's `s.split(sep)[0]`. -/
def beforeFirst (sep : List Char) : List Char → List Char
  | [] => []
  | c :: cs => if tokenAt sep (c :: cs) then [] else c :: beforeFirst sep cs

/-- The delimiter token `.r180W` of the filename convention. -/
def tokenChars : List Char := ['.', 'r', '1', '8', '0', 'W']

/-- `filename.split('.r180W')[0]` as a character list. -/
def beforeToken (filename : String) : List Char :=
  beforeFirst tokenChars filename.toList

/-- Python slice `p[-6:-2]` (with Python's clamping of negative indices):
the 4-character year field. -/
def yearChars (filename : String) : List Char :=
  let p := beforeToken filename
  (p.drop (p.length - 6)).take ((p.length - 2) - (p.length - 6))

/-- Python slice `p[-2:]`: the 2-character month field. -/
def monthChars (filename : String) : List Char :=
  let p := beforeToken filename
  p.drop (p.length - 2)

/-- Decimal value of a digit string. -/
def natOfDigits (cs : List Char) : Nat :=
  cs.foldl (fun a c => 10 * a + (c.toNat - 48)) 0

/-- Whether pandas can parse `f"{ys}-{ms}-01"` as a timestamp (model of the
pandas parser): four digits, two digits, a real month number, and a year
within the representable `pd.Timestamp` range. -/
def validYM (ys ms : List Char) : Bool :=
  ys.length == 4 && ys.all Char.isDigit &&
  ms.length == 2 && ms.all Char.isDigit &&
  Nat.ble 1 (natOfDigits ms) && Nat.ble (natOfDigits ms) 12 &&
  Nat.ble 1678 (natOfDigits ys) && Nat.ble (natOfDigits ys) 2261

/-! ### Calendar model for pandas timestamps -/

/-- Gregorian leap-year test. -/
def isLeapYear (y : Nat) : Bool :=
  (y % 4 == 0 && y % 100 != 0) || (y % 400 == 0)

/-- Length of month `m` of year `y`. -/
def daysInMonth (y m : Nat) : Nat :=
  match m with
  | 2 => if isLeapYear y then 29 else 28
  | 4 => 30
  | 6 => 30
  | 9 => 30
  | 11 => 30
  | _ => 31

/-- Days in the proleptic Gregorian calendar strictly before year `y`
(counting from year 1). -/
def daysBeforeYear (y : Nat) : Nat :=
  365 * (y - 1) + (y - 1) / 4 + (y - 1) / 400 - (y - 1) / 100

/-- Days of year `y` strictly before month `m`. -/
def daysBeforeMonthInYear (y m : Nat) : Nat :=
  ((List.range (m - 1)).map (fun i => daysInMonth y (i + 1))).foldl Nat.add 0

/-- Absolute hour number of `y-m-d h:00:00`. -/
def hoursOfDate (y m d h : Nat) : Nat :=
  (daysBeforeYear y + daysBeforeMonthInYear y m + (d - 1)) * 24 + h

/-- Model of `pd.date_range(start=f"{y}-{m}-01", freq="1H", periods=n)`:
`n` consecutive hours starting at midnight of day 1 of the month. -/
def pdDateRangeHourly (y m n : Nat) : List Nat :=
  (List.range n).map (fun k => hoursOfDate y m 1 0 + k)

/-! ### The dataset model and `open_and_preprocess` -/

/-- An open xarray dataset: named data variables with (flattened) values, the
names of its coordinate variables, and the sizes of the `Days` and `Hours`
axes. -/
structure Dataset where
  vars : List (String × List Val)
  coords : List String
  days : Nat
  hours : Nat
deriving DecidableEq, Repr

/-- Whether `n` is a data variable of `ds`. -/
def Dataset.hasVar (ds : Dataset) (n : String) : Bool :=
  (ds.vars.lookup n).isSome

/-- Whether `n` is a data variable or coordinate of `ds` (what `ds.n`
attribute access and `ds[n]` indexing can reach). -/
def Dataset.hasField (ds : Dataset) (n : String) : Bool :=
  ds.hasVar n || ds.coords.contains n

/-- The result of `open_and_preprocess`: a single-variable labelled array. -/
structure DataArray where
  name : String
  data : List Val
  coordNames : List String
  datetimes : List Nat
  missingValue : Val
deriving DecidableEq, Repr

/-- The outcome tag of each fallible step of `open_and_preprocess`.  The
first five constructors are the Python exceptions the steps raise.
`coordSelected n` is not an exception: it marks the case where the scan
resolved a name present only as a coordinate, so `ds[n]` yields coordinate
data and the rest of the pipeline operates on a coordinate — this value-level
embedding does not track coordinate values, so it tags that branch instead of
modelling it. -/
inductive PreprocessError where
  | parseError
  | nameError
  | keyError (n : String)
  | attributeError (n : String)
  | dropError (n : String)
  | coordSelected (n : String)
deriving DecidableEq, Repr

/-- The value of the loop variable `var` after the scan loop of lines 41-46.
`ds[var]` indexing reaches both data variables and coordinates, so the loop
breaks on the first candidate present as either; when none is present the
loop runs through every candidate and leaves `var` bound to the last one;
with an empty candidate list `var` is never bound (`none`). -/
def scanVar : List String → Dataset → Option String
  | [], _ => none
  | [c], _ => some c
  | c :: c' :: rest, ds =>
      if ds.hasField c then some c else scanVar (c' :: rest) ds

/-- Names removed by `drop_vars(names=["longitude","latitude","time"])`. -/
def rawFieldNames : List String := ["longitude", "latitude", "time"]

/-- Names removed by the final `drop_vars(["Datetime","Days","Hours"])`. -/
def stackedAxisNames : List String := ["Datetime", "Days", "Hours"]

/-- Remove the names in `bad` from a name list. -/
def dropNames (bad l : List String) : List String :=
  l.filter (fun n => !(bad.contains n))

/-- Coordinate names after
`assign_coords(Longitudes=..., Latitudes=..., Datetime=...)`. -/
def assignCoordNames (coords : List String) : List String :=
  coords ++ ["Longitudes", "Latitudes", "Datetime"]

/-- Coordinate names after `stack(Datetime=["Days","Hours"])`: the stacked
multi-index coordinate `Datetime` and its level coordinates `Days`, `Hours`
(re)placed in the coordinate set. -/
def stackCoordNames (coords : List String) : List String :=
  dropNames stackedAxisNames coords ++ stackedAxisNames

/-- Shallow embedding of `open_and_preprocess(filename, variables)`
(lines 35-80), with the dataset produced by `xr.open_dataset` passed
explicitly.  Steps in Python execution order: the scan loop (never raises),
the `pd.date_range` call parsing the filename-derived start date, the
`ds[var]` lookup (raising `NameError` for an unbound loop variable and
`KeyError` when the name is neither a data variable nor a coordinate; a name
present only as a coordinate exits the modelled domain and is tagged
`coordSelected`), the `where` mask conditioned on the active variable,
`assign_coords` (attribute access on `longitude` and `latitude`),
`drop_vars` of the raw fields (raising on the first missing name), the
`stack`, selection of the active variable, the attribute annotation, and the
final drop/assign of the `Datetime` coordinate. -/
def openAndPreprocess (filename : String) (cands : List String) (ds : Dataset) :
    Except PreprocessError DataArray :=
  if validYM (yearChars filename) (monthChars filename) then
    let dtr := (pdDateRangeHourly (natOfDigits (yearChars filename))
        (natOfDigits (monthChars filename)) (ds.days * ds.hours)).map
        (fun t => t + 1)
    match scanVar cands ds with
    | none => .error .nameError
    | some v =>
      match ds.vars.lookup v with
      | none =>
        if ds.coords.contains v then .error (.coordSelected v)
        else .error (.keyError v)
      | some vdata =>
        let maskedVars := ds.vars.map (fun p => (p.1, maskData vdata p.2))
        if ds.hasField "longitude" then
          if ds.hasField "latitude" then
            let coords1 := assignCoordNames ds.coords
            match rawFieldNames.find?
                (fun n => !((maskedVars.lookup n).isSome || coords1.contains n)) with
            | some n => .error (.dropError n)
            | none =>
              let vars1 := maskedVars.filter
                  (fun p => !(rawFieldNames.contains p.1))
              let coords2 := dropNames rawFieldNames coords1
              let coords3 := stackCoordNames coords2
              match vars1.lookup v with
              | none => .error (.keyError v)
              | some vmasked =>
                .ok { name := v
                      data := vmasked
                      coordNames := dropNames stackedAxisNames coords3 ++ ["Datetime"]
                      datetimes := dtr
                      missingValue := Val.nan }
          else .error (.attributeError "latitude")
        else .error (.attributeError "longitude")
  else .error .parseError

/-- The module-level candidate list `variables` (lines 11-32), copied
verbatim from the source: note `'flashes'` appears at index 3 and again at
index 7. -/
def «variables» : List String :=
  [ "precon"
  , "energy_f"
  , "energy_g"
  , "flashes"
  , "groups"
  , "cape"
  , "mf_cbase"
  , "flashes"
  , "pretot"
  , "iwc_440"
  , "pblh"
  , "p_ctop"
  , "p_cbase"
  , "cnv_mfc_440"
  , "z_cbase"
  , "cldht"
  , "t_sfc"
  , "cldfrac_conv_440"
  , "cldfrac_ls_440"
  , "l_cbase"
  ]

/-- The nineteen variable names as the specification document lists them
(spec section 6), in the spec's order, for comparison with the source's
`variables` list. -/
def specVariableNames : List String :=
  [ "precon"
  , "energy_f"
  , "energy_g"
  , "flashes"
  , "groups"
  , "cape"
  , "mf_cbase"
  , "pretot"
  , "iwc_440"
  , "pblh"
  , "p_ctop"
  , "p_cbase"
  , "cnv_mfc_440"
  , "z_cbase"
  , "cldht"
  , "t_sfc"
  , "cldfrac_conv_440"
  , "cldfrac_ls_440"
  , "l_cbase"
  ]

/-! ### The plotting model (`case_study_plotting`, lines 93-225)

The plotting call is modelled as the sequence of graphics effects it
performs.  The only fallible operations relevant to the source are the three
`.sel(..., Datetime=date_time)` calls: selecting with latitude/longitude
*slices* is total, while selecting a single `Datetime` label raises a
`KeyError` when the label is absent from the array's `Datetime` coordinate.
`plt.savefig` / `plt.show` / `plt.close` are effects recorded in the trace.
When a step raises, the call returns the effects performed so far together
with the propagated error. -/

/-- A preprocessed array as the plotter sees it: only its `Datetime`
coordinate labels matter for selection. -/
structure PlotArray where
  datetimes : List Nat
deriving DecidableEq, Repr

/-- Whether `.sel(Datetime=dt)` succeeds on this array. -/
def PlotArray.selOk (a : PlotArray) (dt : Nat) : Bool :=
  a.datetimes.contains dt

/-- One graphics effect of `case_study_plotting`, in source order. -/
inductive Eff where
  | figureCreated
  | pcolormeshDrawn
  | gridlinesDrawn
  | colorbarDrawn
  | contourDrawn (dashed : Bool)
  | clabelDrawn (dashed : Bool)
  | coastlinesDrawn
  | statesDrawn
  | legendDrawn
  | titleSet
  | saved (path : String) (dpi : Nat)
  | shown
  | figureClosed
deriving DecidableEq, Repr

/-- The error a plotting step can propagate. -/
inductive PlotErr where
  | selectionError
deriving DecidableEq, Repr

/-- Shallow embedding of `case_study_plotting`: the effect trace and, when a
step raised, the propagated error.  The figure is created first (line 138);
each `.sel` that fails propagates immediately, leaving the trace performed so
far; on the success path the figure is saved only under `save_string is not
None` (lines 219-220), then shown, then closed. -/
def case_study_plotting (ds_tmp CS1_tmp CS2_tmp : PlotArray)
    (lon_range lat_range : ℚ × ℚ) (date_time : Nat)
    (save_string : Option String) : List Eff × Option PlotErr :=
  if ds_tmp.selOk date_time then
    if CS1_tmp.selOk date_time then
      if CS2_tmp.selOk date_time then
        ([Eff.figureCreated, Eff.pcolormeshDrawn, Eff.gridlinesDrawn,
          Eff.colorbarDrawn, Eff.contourDrawn false, Eff.clabelDrawn false,
          Eff.contourDrawn true, Eff.clabelDrawn true, Eff.coastlinesDrawn,
          Eff.statesDrawn, Eff.legendDrawn, Eff.titleSet]
          ++ (match save_string with
              | some p => [Eff.saved p 200]
              | none => [])
          ++ [Eff.shown, Eff.figureClosed], none)
      else
        ([Eff.figureCreated, Eff.pcolormeshDrawn, Eff.gridlinesDrawn,
          Eff.colorbarDrawn, Eff.contourDrawn false, Eff.clabelDrawn false],
         some PlotErr.selectionError)
    else
      ([Eff.figureCreated, Eff.pcolormeshDrawn, Eff.gridlinesDrawn,
        Eff.colorbarDrawn], some PlotErr.selectionError)
  else
    ([Eff.figureCreated], some PlotErr.selectionError)

/-- A small concrete dataset in the documented input-file format: the raw
`longitude`/`latitude`/`time` fields, one candidate variable `cape` whose
data contains the sentinel, and the `Days`/`Hours` axes. -/
def sampleDs : Dataset :=
  { vars := [("longitude", [Val.num 0]), ("latitude", [Val.num 0]),
             ("time", [Val.num 0]),
             ("cape", [Val.num 5, Val.num sentinel, Val.nan, Val.num 3])]
    coords := ["Days", "Hours"]
    days := 2
    hours := 2 }

/-- Like `sampleDs` but without a `time` field. -/
def sampleDsNoTime : Dataset :=
  { vars := [("longitude", [Val.num 0]), ("latitude", [Val.num 0]),
             ("cape", [Val.num 5])]
    coords := ["Days", "Hours"]
    days := 1
    hours := 1 }

/-! ### Helper lemmas -/

/-- The scan loop returns the first candidate present in the dataset as a
field (data variable or coordinate). -/
theorem scanVar_eq_of_find (ds : Dataset) :
    ∀ (cands : List String) (v : String),
      cands.find? (fun c => ds.hasField c) = some v →
      scanVar cands ds = some v := by
  intro cands
  induction cands with
  | nil => intro v h; simp at h
  | cons c rest ih =>
    intro v h
    by_cases hc : ds.hasField c
    · rw [List.find?_cons_of_pos _ hc] at h
      cases h
      cases rest with
      | nil => rfl
      | cons c' r => simp only [scanVar]; rw [if_pos hc]
    · rw [List.find?_cons_of_neg _ (by simpa using hc)] at h
      cases rest with
      | nil => simp at h
      | cons c' r =>
        simp only [scanVar]
        rw [if_neg hc]
        exact ih v h

/-- When no candidate is present as a field, the scan loop runs to the end
and leaves the loop variable bound to the last candidate. -/
theorem scanVar_eq_getLast_of_none (ds : Dataset) :
    ∀ (cands : List String) (h : cands ≠ [])
      (hn : ∀ c ∈ cands, ds.hasField c = false),
      scanVar cands ds = some (cands.getLast h) := by
  intro cands
  induction cands with
  | nil => intro h; exact absurd rfl h
  | cons c rest ih =>
    intro h hn
    cases rest with
    | nil => rfl
    | cons c' r =>
      have hc : ds.hasField c = false := hn c (by simp)
      rw [List.getLast_cons (by simp)]
      simp only [scanVar]
      rw [if_neg (by simp [hc])]
      exact ih (by simp) (fun x hx => hn x (by simp [hx]))

/-- `lookup` commutes with mapping a function over the values of an
association list. -/
theorem lookup_map_values (g : List Val → List Val) :
    ∀ (l : List (String × List Val)) (k : String),
      (l.map (fun p => (p.1, g p.2))).lookup k = (l.lookup k).map g := by
  intro l
  induction l with
  | nil => intro k; rfl
  | cons p rest ih =>
    intro k
    obtain ⟨a, b⟩ := p
    cases hk : (k == a) with
    | true => simp only [List.map_cons, List.lookup, hk, Option.map_some']
    | false => simp only [List.map_cons, List.lookup, hk]; exact ih k

/-- Filtering out keys that are not the looked-up key does not change
`lookup`. -/
theorem lookup_filter_keep (bad : List String) :
    ∀ (l : List (String × List Val)) (k : String), bad.contains k = false →
      (l.filter (fun p => !(bad.contains p.1))).lookup k = l.lookup k := by
  intro l
  induction l with
  | nil => intro k _; rfl
  | cons p rest ih =>
    intro k hk
    obtain ⟨a, b⟩ := p
    cases ha : bad.contains a with
    | true =>
      have hak : (k == a) = false := by
        cases hka : (k == a) with
        | false => rfl
        | true =>
          have hke : k = a := by simpa using hka
          rw [hke] at hk
          rw [hk] at ha
          exact absurd ha (by simp)
      simp only [List.filter_cons, ha, Bool.not_true]
      rw [if_neg (by simp)]
      rw [ih k hk]
      simp only [List.lookup, hak]
    | false =>
      simp only [List.filter_cons, ha, Bool.not_false]
      rw [if_pos trivial]
      cases hak : (k == a) with
      | true => simp only [List.lookup, hak]
      | false => simp only [List.lookup, hak]; exact ih k hk

/-- `contains` distributes over list append. -/
theorem contains_append (l1 l2 : List String) (a : String) :
    (l1 ++ l2).contains a = (l1.contains a || l2.contains a) := by
  induction l1 with
  | nil => simp
  | cons x xs ih => simp_all [List.contains_cons, Bool.or_assoc]

/-- Masking an array against itself replaces exactly the sentinel values. -/
theorem maskData_self : ∀ (d : List Val), maskData d d = d.map maskSentinel := by
  intro d
  induction d with
  | nil => rfl
  | cons x xs ih =>
    simp only [maskData, List.zipWith_cons_cons, List.map_cons]
    exact congrArg₂ List.cons rfl ih

/-- When a raw field named `n` is a field of the dataset, the `drop_vars`
membership check for `n` succeeds. -/
theorem dropCheck_false_of_hasField (ds : Dataset) (vdata : List Val)
    (n : String) (hn : ds.hasField n = true) :
    (!(((ds.vars.map (fun p => (p.1, maskData vdata p.2))).lookup n).isSome
      || (assignCoordNames ds.coords).contains n)) = false := by
  rw [lookup_map_values]
  have hiso : ((ds.vars.lookup n).map (maskData vdata)).isSome
      = (ds.vars.lookup n).isSome := by
    cases ds.vars.lookup n <;> rfl
  rw [hiso]
  rw [show assignCoordNames ds.coords
      = ds.coords ++ ["Longitudes", "Latitudes", "Datetime"] from rfl]
  rw [contains_append]
  simp only [Dataset.hasField, Dataset.hasVar] at hn
  cases h1 : (ds.vars.lookup n).isSome <;>
    cases h2 : ds.coords.contains n <;> simp_all

/-- The preprocessing pipeline on a well-formed input: when the filename
parses, the scan resolves `v`, `v` holds data `vdata`, the raw
`longitude`/`latitude`/`time` fields are present, and `v` is not itself one
of the dropped raw fields, `open_and_preprocess` succeeds and returns the
active variable's data with exactly the sentinel values replaced by NaN, the
re-keyed coordinates, the shifted hourly timestamp axis, and the NaN
missing-value attribute. -/
theorem openAndPreprocess_ok (f : String) (cands : List String) (ds : Dataset)
    (v : String) (vdata : List Val)
    (hvalid : validYM (yearChars f) (monthChars f) = true)
    (hscan : scanVar cands ds = some v)
    (hv : ds.vars.lookup v = some vdata)
    (hlon : ds.hasField "longitude" = true)
    (hlat : ds.hasField "latitude" = true)
    (htime : ds.hasField "time" = true)
    (hvraw : rawFieldNames.contains v = false) :
    openAndPreprocess f cands ds = .ok
      { name := v
        data := vdata.map maskSentinel
        coordNames := dropNames stackedAxisNames
            (stackCoordNames (dropNames rawFieldNames (assignCoordNames ds.coords)))
          ++ ["Datetime"]
        datetimes := (pdDateRangeHourly (natOfDigits (yearChars f))
            (natOfDigits (monthChars f)) (ds.days * ds.hours)).map (fun t => t + 1)
        missingValue := Val.nan } := by
  have hfield := fun n hn => dropCheck_false_of_hasField ds vdata n hn
  unfold openAndPreprocess
  rw [if_pos hvalid]
  simp only [hscan, hv]
  rw [if_pos hlon, if_pos hlat]
  rw [show rawFieldNames = ["longitude", "latitude", "time"] from rfl]
  simp only [List.find?]
  rw [hfield "longitude" hlon, hfield "latitude" hlat, hfield "time" htime]
  simp only []
  rw [show (["longitude", "latitude", "time"] : List String) = rawFieldNames from rfl]
  rw [lookup_filter_keep rawFieldNames _ v hvraw]
  rw [lookup_map_values (maskData vdata) ds.vars v, hv]
  simp only [Option.map_some']
  rw [maskData_self]

/-- When a raw field named `n` is absent from the dataset (and `n` is not one
of the freshly assigned coordinate names), the `drop_vars` membership check
for `n` fails. -/
theorem dropPred_true_of_missing (ds : Dataset) (vdata : List Val) (n : String)
    (hn : ds.hasField n = false)
    (hextra : (["Longitudes", "Latitudes", "Datetime"] : List String).contains n
      = false) :
    (!(((ds.vars.map (fun p => (p.1, maskData vdata p.2))).lookup n).isSome
      || (assignCoordNames ds.coords).contains n)) = true := by
  rw [lookup_map_values]
  have hiso : ((ds.vars.lookup n).map (maskData vdata)).isSome
      = (ds.vars.lookup n).isSome := by
    cases ds.vars.lookup n <;> rfl
  rw [hiso]
  rw [show assignCoordNames ds.coords
      = ds.coords ++ ["Longitudes", "Latitudes", "Datetime"] from rfl]
  rw [contains_append]
  simp only [Dataset.hasField, Dataset.hasVar] at hn
  cases h1 : (ds.vars.lookup n).isSome <;>
    cases h2 : ds.coords.contains n <;> simp_all

/-! ### Claim theorems -/

/-- Claim C3: with at least one candidate present in the dataset, the scan
loop of `open_and_preprocess` resolves exactly one active variable, namely
the first candidate (in sequence order) present as a field of the dataset. -/
theorem preprocess_selects_first_candidate (cands : List String) (ds : Dataset)
    (h : ∃ c ∈ cands, ds.hasField c = true) :
    ∃ v, cands.find? (fun c => ds.hasField c) = some v ∧
      scanVar cands ds = some v := by
  obtain ⟨c, hc, hp⟩ := h
  have hs : (cands.find? (fun c => ds.hasField c)).isSome :=
    List.find?_isSome.mpr ⟨c, hc, hp⟩
  obtain ⟨v, hv⟩ := Option.isSome_iff_exists.mp hs
  exact ⟨v, hv, scanVar_eq_of_find ds cands v hv⟩

/-- Witness for the scan theorem: with candidates `["pblh", "cape"]` and the
sample dataset (which has `cape` but not `pblh`), the scan resolves `cape`. -/
theorem preprocess_selects_first_candidate_witness :
    ∃ v, (["pblh", "cape"] : List String).find?
        (fun c => sampleDs.hasField c) = some v ∧
      scanVar ["pblh", "cape"] sampleDs = some v :=
  preprocess_selects_first_candidate ["pblh", "cape"] sampleDs
    ⟨"cape", by decide, by decide⟩

/-- Claim C1: on an input containing a candidate variable, the returned
field's data equals the source data of the active variable with every value
equal to the sentinel `1e15` replaced by NaN and no other value replaced
(`maskSentinel` is applied pointwise, and its condition tests only the active
variable's own value). -/
theorem preprocess_masks_only_sentinel (f : String) (cands : List String)
    (ds : Dataset) (v : String) (vdata : List Val)
    (hvalid : validYM (yearChars f) (monthChars f) = true)
    (hfind : cands.find? (fun c => ds.hasField c) = some v)
    (hv : ds.vars.lookup v = some vdata)
    (hlon : ds.hasField "longitude" = true)
    (hlat : ds.hasField "latitude" = true)
    (htime : ds.hasField "time" = true)
    (hvraw : rawFieldNames.contains v = false) :
    ∃ arr : DataArray, openAndPreprocess f cands ds = .ok arr ∧
      arr.name = v ∧ arr.data = vdata.map maskSentinel :=
  ⟨_, openAndPreprocess_ok f cands ds v vdata hvalid
      (scanVar_eq_of_find ds cands v hfind) hv hlon hlat htime hvraw,
    rfl, rfl⟩

/-- Witness for the masking theorem on the sample dataset: `cape`'s data
`[5, 1e15, NaN, 3]` comes back with exactly the sentinel replaced. -/
theorem preprocess_masks_only_sentinel_witness :
    ∃ arr : DataArray,
      openAndPreprocess "201907.r180W.SOM.nc4" ["cape"] sampleDs = .ok arr ∧
      arr.name = "cape" ∧
      arr.data = ([Val.num 5, Val.num sentinel, Val.nan, Val.num 3]).map
        maskSentinel :=
  preprocess_masks_only_sentinel "201907.r180W.SOM.nc4" ["cape"] sampleDs
    "cape" [Val.num 5, Val.num sentinel, Val.nan, Val.num 3]
    (by decide) (by decide) (by decide) (by decide) (by decide) (by decide)
    (by decide)

/-- Claim C2: when the 6 characters before the `.r180W` token are a valid
`YYYYMM`, the returned `Datetime` coordinate has exactly
`len(Days) * len(Hours)` entries at 1-hour spacing, and its first entry is
day 1 of that month at 01:00:00 (midnight shifted by the one-hour
hour-ending offset). -/
theorem preprocess_datetime_axis (f : String) (cands : List String)
    (ds : Dataset) (v : String) (vdata : List Val)
    (hvalid : validYM (yearChars f) (monthChars f) = true)
    (hfind : cands.find? (fun c => ds.hasField c) = some v)
    (hv : ds.vars.lookup v = some vdata)
    (hlon : ds.hasField "longitude" = true)
    (hlat : ds.hasField "latitude" = true)
    (htime : ds.hasField "time" = true)
    (hvraw : rawFieldNames.contains v = false) :
    ∃ arr : DataArray, openAndPreprocess f cands ds = .ok arr ∧
      arr.datetimes.length = ds.days * ds.hours ∧
      (∀ i, i + 1 < arr.datetimes.length →
        arr.datetimes[i + 1]? = (arr.datetimes[i]?).map (fun t => t + 1)) ∧
      (0 < ds.days * ds.hours →
        arr.datetimes.head? = some (hoursOfDate (natOfDigits (yearChars f))
          (natOfDigits (monthChars f)) 1 1)) := by
  refine ⟨_, openAndPreprocess_ok f cands ds v vdata hvalid
      (scanVar_eq_of_find ds cands v hfind) hv hlon hlat htime hvraw,
    ?_, ?_, ?_⟩
  · simp [pdDateRangeHourly]
  · intro i hi
    simp only [pdDateRangeHourly, List.map_map, List.length_map,
      List.length_range] at hi ⊢
    rw [List.getElem?_map, List.getElem?_map, List.getElem?_range hi,
      List.getElem?_range (by omega)]
    simp only [Option.map_some', Function.comp_apply, Option.some.injEq]
    omega
  · intro hpos
    simp only [pdDateRangeHourly, List.map_map]
    cases hn : ds.days * ds.hours with
    | zero => omega
    | succ k =>
      rw [List.range_succ_eq_map]
      simp only [List.map_cons, List.head?_cons, Function.comp_apply]
      rw [show hoursOfDate (natOfDigits (yearChars f))
          (natOfDigits (monthChars f)) 1 0 + 0 + 1
        = hoursOfDate (natOfDigits (yearChars f))
          (natOfDigits (monthChars f)) 1 1 from by simp [hoursOfDate]]

/-- Witness for the timestamp theorem: for the filename
`201907.r180W.SOM.nc4` the axis starts at `hoursOfDate 2019 7 1 1`, the hour
number of 2019-07-01T01:00:00, and has `2 * 2` hourly entries. -/
theorem preprocess_datetime_axis_witness :
    ∃ arr : DataArray,
      openAndPreprocess "201907.r180W.SOM.nc4" ["cape"] sampleDs = .ok arr ∧
      arr.datetimes.length = sampleDs.days * sampleDs.hours ∧
      (∀ i, i + 1 < arr.datetimes.length →
        arr.datetimes[i + 1]? = (arr.datetimes[i]?).map (fun t => t + 1)) ∧
      (0 < sampleDs.days * sampleDs.hours →
        arr.datetimes.head? = some (hoursOfDate
          (natOfDigits (yearChars "201907.r180W.SOM.nc4"))
          (natOfDigits (monthChars "201907.r180W.SOM.nc4")) 1 1)) :=
  preprocess_datetime_axis "201907.r180W.SOM.nc4" ["cape"] sampleDs
    "cape" [Val.num 5, Val.num sentinel, Val.nan, Val.num 3]
    (by decide) (by decide) (by decide) (by decide) (by decide) (by decide)
    (by decide)

/-- Claim C4: on a successful run over an input whose coordinate variables
are the `Days`/`Hours` axes, the returned array carries exactly the
coordinates `Longitudes`, `Latitudes`, `Datetime` (the raw fields and the two
time-like axes having been dropped), and its attributes record the NaN
missing-value marker. -/
theorem preprocess_final_coords (f : String) (cands : List String)
    (ds : Dataset) (v : String) (vdata : List Val)
    (hvalid : validYM (yearChars f) (monthChars f) = true)
    (hfind : cands.find? (fun c => ds.hasField c) = some v)
    (hv : ds.vars.lookup v = some vdata)
    (hlon : ds.hasField "longitude" = true)
    (hlat : ds.hasField "latitude" = true)
    (htime : ds.hasField "time" = true)
    (hvraw : rawFieldNames.contains v = false)
    (hcoords : ds.coords = ["Days", "Hours"]) :
    ∃ arr : DataArray, openAndPreprocess f cands ds = .ok arr ∧
      arr.coordNames = ["Longitudes", "Latitudes", "Datetime"] ∧
      arr.missingValue = Val.nan := by
  refine ⟨_, openAndPreprocess_ok f cands ds v vdata hvalid
      (scanVar_eq_of_find ds cands v hfind) hv hlon hlat htime hvraw,
    ?_, rfl⟩
  rw [hcoords]
  rfl

/-- Witness for the coordinate re-keying theorem on the sample dataset. -/
theorem preprocess_final_coords_witness :
    ∃ arr : DataArray,
      openAndPreprocess "201907.r180W.SOM.nc4" ["cape"] sampleDs = .ok arr ∧
      arr.coordNames = ["Longitudes", "Latitudes", "Datetime"] ∧
      arr.missingValue = Val.nan :=
  preprocess_final_coords "201907.r180W.SOM.nc4" ["cape"] sampleDs
    "cape" [Val.num 5, Val.num sentinel, Val.nan, Val.num 3]
    (by decide) (by decide) (by decide) (by decide) (by decide) (by decide)
    (by decide) (by decide)

/-- Claim C6: when no candidate is present in the dataset (neither as a data
variable nor as a coordinate), the scan loop does not fail fast: it exits
with the loop variable bound to the last candidate, and the subsequent
masking step operates on that unresolved name — the call then fails at the
`ds[var]` lookup with a key error naming the last candidate, not at the
scan. -/
theorem preprocess_no_candidate_fallthrough (f : String) (cands : List String)
    (ds : Dataset) (hne : cands ≠ [])
    (hnone : ∀ c ∈ cands, ds.hasField c = false)
    (hvalid : validYM (yearChars f) (monthChars f) = true) :
    scanVar cands ds = some (cands.getLast hne) ∧
    openAndPreprocess f cands ds = .error (.keyError (cands.getLast hne)) := by
  have hscan := scanVar_eq_getLast_of_none ds cands hne hnone
  refine ⟨hscan, ?_⟩
  have hmem := hnone (cands.getLast hne) (List.getLast_mem hne)
  simp only [Dataset.hasField, Dataset.hasVar, Bool.or_eq_false_iff] at hmem
  have hlast : ds.vars.lookup (cands.getLast hne) = none := by
    cases hl : ds.vars.lookup (cands.getLast hne) with
    | none => rfl
    | some x => rw [hl] at hmem; simp at hmem
  unfold openAndPreprocess
  rw [if_pos hvalid]
  simp only [hscan, hlast]
  rw [if_neg (by rw [hmem.2]; exact Bool.false_ne_true)]

/-- Witness for the fall-through theorem: with candidates
`["pblh", "t_sfc"]`, neither present in the sample dataset, the loop exits
bound to `t_sfc` and the call fails with a key error on `t_sfc`. -/
theorem preprocess_no_candidate_fallthrough_witness :
    scanVar ["pblh", "t_sfc"] sampleDs = some "t_sfc" ∧
    openAndPreprocess "201907.r180W.SOM.nc4" ["pblh", "t_sfc"] sampleDs
      = .error (.keyError "t_sfc") :=
  preprocess_no_candidate_fallthrough "201907.r180W.SOM.nc4"
    ["pblh", "t_sfc"] sampleDs (by decide) (by decide) (by decide)

/-- Claim C10: `open_and_preprocess` requires a `time` field even though the
documented input contract does not list one: on a dataset with `longitude`
and `latitude` (and a resolvable candidate variable) but no `time` field, the
coordinate re-keying step fails with a lookup error on `"time"` when dropping
the original fields. -/
theorem preprocess_requires_time_field (f : String) (cands : List String)
    (ds : Dataset) (v : String) (vdata : List Val)
    (hvalid : validYM (yearChars f) (monthChars f) = true)
    (hfind : cands.find? (fun c => ds.hasField c) = some v)
    (hv : ds.vars.lookup v = some vdata)
    (hlon : ds.hasField "longitude" = true)
    (hlat : ds.hasField "latitude" = true)
    (htime : ds.hasField "time" = false) :
    openAndPreprocess f cands ds = .error (.dropError "time") := by
  have hscan := scanVar_eq_of_find ds cands v hfind
  unfold openAndPreprocess
  rw [if_pos hvalid]
  simp only [hscan, hv]
  rw [if_pos hlon, if_pos hlat]
  rw [show rawFieldNames = ["longitude", "latitude", "time"] from rfl]
  simp only [List.find?]
  rw [dropCheck_false_of_hasField ds vdata "longitude" hlon,
    dropCheck_false_of_hasField ds vdata "latitude" hlat,
    dropPred_true_of_missing ds vdata "time" htime (by decide)]

/-- Witness for the missing-`time` theorem on the sample dataset without a
`time` field. -/
theorem preprocess_requires_time_field_witness :
    openAndPreprocess "201907.r180W.SOM.nc4" ["cape"] sampleDsNoTime
      = .error (.dropError "time") :=
  preprocess_requires_time_field "201907.r180W.SOM.nc4" ["cape"]
    sampleDsNoTime "cape" [Val.num 5]
    (by decide) (by decide) (by decide) (by decide) (by decide) (by decide)

/-- Claim C8 counterexample: the filename `abcd201907` does not contain the
delimiter token `.r180W` at all (the text before the first token occurrence
is the whole filename), yet `open_and_preprocess` does not fail with a parse
error — its trailing characters happen to parse as `2019`/`07`, and the call
proceeds with timestamp construction and succeeds. -/
theorem parse_error_missing_token_cex :
    beforeToken "abcd201907" = "abcd201907".toList ∧
    (openAndPreprocess "abcd201907" ["cape"] sampleDs).toOption.isSome
      = true := by
  decide

/-- Claim C8 (amended): `open_and_preprocess` fails with a parse error
exactly when the extracted substrings (the 4-then-2 trailing characters of
the text before the first `.r180W` occurrence, or of the whole filename when
the token is absent) do not form a parseable year-month; in particular a
filename lacking the token can still proceed when its trailing characters
parse. -/
theorem parse_error_iff_invalid_extraction (f : String) (cands : List String)
    (ds : Dataset) :
    openAndPreprocess f cands ds = .error .parseError ↔
      validYM (yearChars f) (monthChars f) = false := by
  constructor
  · intro h
    cases hb : validYM (yearChars f) (monthChars f) with
    | false => rfl
    | true =>
      exfalso
      unfold openAndPreprocess at h
      rw [if_pos hb] at h
      cases hsc : scanVar cands ds with
      | none => rw [hsc] at h; simp at h
      | some v =>
        rw [hsc] at h
        simp only [] at h
        cases hlk : List.lookup v ds.vars with
        | none =>
          rw [hlk] at h
          simp only [] at h
          by_cases hcv : ds.coords.contains v
          · rw [if_pos hcv] at h; simp at h
          · rw [if_neg hcv] at h; simp at h
        | some vd =>
          rw [hlk] at h
          simp only [] at h
          by_cases hlon : ds.hasField "longitude"
          · rw [if_pos hlon] at h
            by_cases hlat : ds.hasField "latitude"
            · rw [if_pos hlat] at h
              cases hf : List.find?
                  (fun n =>
                    !((List.lookup n
                        (List.map (fun p => (p.1, maskData vd p.2)) ds.vars)).isSome
                      || (assignCoordNames ds.coords).contains n))
                  rawFieldNames with
              | some n => rw [hf] at h; simp at h
              | none =>
                rw [hf] at h
                cases hl2 : List.lookup v
                    (List.filter (fun p => !(rawFieldNames.contains p.1))
                      (List.map (fun p => (p.1, maskData vd p.2)) ds.vars)) with
                | none => rw [hl2] at h; simp at h
                | some w => rw [hl2] at h; simp at h
            · rw [if_neg hlat] at h; simp at h
          · rw [if_neg hlon] at h; simp at h
  · intro h
    unfold openAndPreprocess
    rw [if_neg (by simp [h])]

/-- Witness for the parse-error theorem at the filename `garbage`, whose
extracted fields `arba`/`ge` are not digits. -/
theorem parse_error_iff_invalid_extraction_witness :
    openAndPreprocess "garbage" ["cape"] sampleDs = .error .parseError ↔
      validYM (yearChars "garbage") (monthChars "garbage") = false :=
  parse_error_iff_invalid_extraction "garbage" ["cape"] sampleDs

/-- Claim C9 counterexample: the source list `variables` is not the
nineteen-name each-exactly-once list — `'flashes'` appears twice. -/
theorem variables_duplicate_cex :
    «variables».count "flashes" = 2 ∧ «variables» ≠ specVariableNames := by
  decide

/-- Claim C9 (amended): the source list has twenty entries — the nineteen
names in the stated order with a second `'flashes'` inserted between
`mf_cbase` and `pretot` (index 7); `'flashes'` appears twice and every other
name exactly once. -/
theorem variables_list_amended :
    «variables» = specVariableNames.take 7
      ++ "flashes" :: specVariableNames.drop 7 ∧
    «variables».length = 20 ∧
    «variables».count "flashes" = 2 ∧
    ((specVariableNames.filter (fun s => !(s == "flashes"))).all
      (fun s => «variables».count s == 1)) = true := by
  decide

/-- Claim C5 counterexample: when the first `.sel` fails (requested timestamp
absent from the model field), `case_study_plotting` propagates the selection
error after creating the figure, and no close effect occurs on that exit
path — the figure is not released. -/
theorem plot_close_skipped_on_error_cex :
    (case_study_plotting ⟨[]⟩ ⟨[]⟩ ⟨[]⟩ (0, 0) (0, 0) 5 none).2
      = some PlotErr.selectionError ∧
    Eff.figureCreated ∈ (case_study_plotting ⟨[]⟩ ⟨[]⟩ ⟨[]⟩ (0, 0) (0, 0) 5 none).1 ∧
    Eff.figureClosed ∉ (case_study_plotting ⟨[]⟩ ⟨[]⟩ ⟨[]⟩ (0, 0) (0, 0) 5 none).1 := by
  decide

/-- Claim C5 (amended): the figure is closed (as the final effect) on the
successful exit path; on the error exit paths — a failed selection — the
error propagates with the figure left unreleased. -/
theorem plot_figure_close_paths (d1 d2 d3 : PlotArray)
    (lon_range lat_range : ℚ × ℚ) (date_time : Nat)
    (save_string : Option String) :
    ((case_study_plotting d1 d2 d3 lon_range lat_range date_time
        save_string).2 = none →
      (case_study_plotting d1 d2 d3 lon_range lat_range date_time
        save_string).1.getLast? = some Eff.figureClosed) ∧
    ((case_study_plotting d1 d2 d3 lon_range lat_range date_time
        save_string).2 ≠ none →
      Eff.figureClosed ∉ (case_study_plotting d1 d2 d3 lon_range lat_range
        date_time save_string).1) := by
  unfold case_study_plotting
  cases h1 : d1.selOk date_time <;> cases h2 : d2.selOk date_time <;>
    cases h3 : d3.selOk date_time <;> cases save_string <;>
      simp_all [List.getLast?]

/-- Witness for the figure-release theorem at a successful concrete call. -/
theorem plot_figure_close_paths_witness :
    ((case_study_plotting ⟨[7]⟩ ⟨[7]⟩ ⟨[7]⟩ (0, 0) (0, 0) 7 none).2 = none →
      (case_study_plotting ⟨[7]⟩ ⟨[7]⟩ ⟨[7]⟩ (0, 0) (0, 0) 7 none).1.getLast?
        = some Eff.figureClosed) ∧
    ((case_study_plotting ⟨[7]⟩ ⟨[7]⟩ ⟨[7]⟩ (0, 0) (0, 0) 7 none).2 ≠ none →
      Eff.figureClosed ∉
        (case_study_plotting ⟨[7]⟩ ⟨[7]⟩ ⟨[7]⟩ (0, 0) (0, 0) 7 none).1) :=
  plot_figure_close_paths ⟨[7]⟩ ⟨[7]⟩ ⟨[7]⟩ (0, 0) (0, 0) 7 none

/-- Claim C7: on a successful call, the figure is written (at 200 dots per
inch, to the caller's path, before the display effect) precisely when a save
path is supplied; with no save path, no save effect occurs. -/
theorem plot_save_iff_path (d1 d2 d3 : PlotArray)
    (lon_range lat_range : ℚ × ℚ) (date_time : Nat)
    (save_string : Option String)
    (h1 : d1.selOk date_time = true) (h2 : d2.selOk date_time = true)
    (h3 : d3.selOk date_time = true) :
    (case_study_plotting d1 d2 d3 lon_range lat_range date_time
      save_string).2 = none ∧
    (∀ q, save_string = some q → ∃ i j : Nat, i < j ∧
      (case_study_plotting d1 d2 d3 lon_range lat_range date_time
        save_string).1[i]? = some (Eff.saved q 200) ∧
      (case_study_plotting d1 d2 d3 lon_range lat_range date_time
        save_string).1[j]? = some Eff.shown) ∧
    (save_string = none → ∀ q d, Eff.saved q d ∉
      (case_study_plotting d1 d2 d3 lon_range lat_range date_time
        save_string).1) ∧
    (∀ q d, Eff.saved q d ∈
        (case_study_plotting d1 d2 d3 lon_range lat_range date_time
          save_string).1 →
      save_string = some q ∧ d = 200) := by
  unfold case_study_plotting
  rw [if_pos h1, if_pos h2, if_pos h3]
  cases save_string with
  | none =>
    refine ⟨rfl, ?_, ?_, ?_⟩
    · intro q hq
      exact Option.noConfusion hq
    · intro _ q d
      simp
    · intro q d hmem
      simp at hmem
  | some p =>
    refine ⟨rfl, ?_, ?_, ?_⟩
    · intro q hq
      injection hq with hq'
      subst hq'
      exact ⟨12, 13, by omega, rfl, rfl⟩
    · intro hnone
      exact Option.noConfusion hnone
    · intro q d hmem
      simp at hmem
      exact ⟨by rw [hmem.1], hmem.2⟩

/-- Witness for the save-path theorem at a successful concrete call with a
save path supplied. -/
theorem plot_save_iff_path_witness :
    (case_study_plotting ⟨[3]⟩ ⟨[3]⟩ ⟨[3]⟩ (0, 0) (0, 0) 3
      (some "fig.png")).2 = none ∧
    (∀ q, (some "fig.png" : Option String) = some q → ∃ i j : Nat, i < j ∧
      (case_study_plotting ⟨[3]⟩ ⟨[3]⟩ ⟨[3]⟩ (0, 0) (0, 0) 3
        (some "fig.png")).1[i]? = some (Eff.saved q 200) ∧
      (case_study_plotting ⟨[3]⟩ ⟨[3]⟩ ⟨[3]⟩ (0, 0) (0, 0) 3
        (some "fig.png")).1[j]? = some Eff.shown) ∧
    ((some "fig.png" : Option String) = none → ∀ q d, Eff.saved q d ∉
      (case_study_plotting ⟨[3]⟩ ⟨[3]⟩ ⟨[3]⟩ (0, 0) (0, 0) 3
        (some "fig.png")).1) ∧
    (∀ q d, Eff.saved q d ∈
        (case_study_plotting ⟨[3]⟩ ⟨[3]⟩ ⟨[3]⟩ (0, 0) (0, 0) 3
          (some "fig.png")).1 →
      (some "fig.png" : Option String) = some q ∧ d = 200) :=
  plot_save_iff_path ⟨[3]⟩ ⟨[3]⟩ ⟨[3]⟩ (0, 0) (0, 0) 3 (some "fig.png")
    (by decide) (by decide) (by decide)

end LightningNox
